import Mathlib

/-!
Shallow embedding of the Temporal Risk Aggregation Engine
(`services/social_service/app/db/temporal_engine.py`) and of the
message-level fusion pipeline (`services/social_service/app.py`).

Modelling conventions:
* Python floats become `ℚ` (all operations used are comparisons, max,
  sum and division, which are exact on rationals).
* Timestamps become `Int`, measured in hours; `timedelta.days` becomes
  floor division by 24 (`Int.fdiv`), matching Python's flooring
  semantics, and SQL `INTERVAL 'd days'` becomes `24 * d` hours.
* Python dicts with possibly-missing keys become structures of
  `Option` fields; `d[k]` becomes a monadic bind (failure on `none`,
  modelling `KeyError`) and `d.get(k, v)` becomes `Option.getD`.
* The two PostgreSQL tables become Lean lists of rows; the SQL
  `ON CONFLICT ... DO UPDATE` upserts become explicit list updates that
  set exactly the columns listed in the SQL `SET` clause.
* `datetime.now()` / `CURRENT_TIMESTAMP` becomes an explicit `now`
  parameter threaded through the calls.
* SQL `ORDER BY` clauses are modelled by an insertion sort on the same
  key; the aggregation functions themselves are order-insensitive.
-/

/-- One row of the `message_predictions` table (and, equivalently, one
per-message prediction record handed to the aggregation functions). -/
structure Msg where
  user_id : String
  message_text : String
  timestamp : Int
  p_craving : ℚ
  p_relapse : ℚ
  p_negative_mood : ℚ
  p_neutral : ℚ
  p_toxic : ℚ
  p_isolation : ℚ
  risk_score : ℚ
  conversation_type : String
deriving Repr, DecidableEq

/-- The `thresholds` configuration dict.  Every key may be absent,
modelling an arbitrary Python dict supplied by the caller. -/
structure Thresholds where
  T_relapse : Option ℚ := none
  T_craving : Option ℚ := none
  T_high : Option ℚ := none
  T_mid : Option ℚ := none
  T_iso : Option ℚ := none
  T_iso_escalate : Option ℚ := none
  T_toxic : Option ℚ := none
deriving Repr, DecidableEq

/-- A fully populated threshold configuration (every key present). -/
structure ThresholdVals where
  T_relapse : ℚ
  T_craving : ℚ
  T_high : ℚ
  T_mid : ℚ
  T_iso : ℚ
  T_iso_escalate : ℚ
  T_toxic : ℚ
deriving Repr, DecidableEq

/-- View a complete threshold assignment as a configuration dict. -/
def ThresholdVals.toThresholds (v : ThresholdVals) : Thresholds :=
  { T_relapse := some v.T_relapse
    T_craving := some v.T_craving
    T_high := some v.T_high
    T_mid := some v.T_mid
    T_iso := some v.T_iso
    T_iso_escalate := some v.T_iso_escalate
    T_toxic := some v.T_toxic }

/-- `timedelta.days`: the day count of a time difference measured in
hours, flooring toward negative infinity exactly as Python does. -/
def days (delta : Int) : Int := Int.fdiv delta 24

/-- `app.py` `compute_risk_score`: `max(p_relapse, p_craving,
neg_weight * p_negative_mood)`. -/
def compute_risk_score (p_relapse p_craving p_negative_mood neg_weight : ℚ) : ℚ :=
  max p_relapse (max p_craving (neg_weight * p_negative_mood))

/-- `app.py` `apply_fusion_v2`: the message-level fusion decision.
The six `thresholds[...]` subscript reads raise `KeyError` when a key
is absent, modelled by `Option` bind returning `none`. -/
def apply_fusion_v2 (risk_score p_relapse p_craving p_isolation : ℚ)
    (thresholds : Thresholds) : Option (String × List String) := do
  let T_relapse ← thresholds.T_relapse
  let T_craving ← thresholds.T_craving
  let T_high ← thresholds.T_high
  let T_mid ← thresholds.T_mid
  let T_iso ← thresholds.T_iso
  let T_iso_escalate ← thresholds.T_iso_escalate
  if p_relapse ≥ T_relapse ∨ p_craving ≥ T_craving ∨ risk_score ≥ T_high then
    pure ("HIGH_RISK", ["Acute addiction-risk trigger (relapse/craving/high risk_score)"])
  else if risk_score ≥ T_iso_escalate ∧ p_isolation ≥ T_iso then
    pure ("HIGH_RISK", ["Isolation escalated risk because risk_score was already high-ish"])
  else if risk_score ≥ T_mid then
    pure ("MODERATE_RISK", ["Moderate vulnerability detected (risk_score >= T_mid)"])
  else if p_isolation ≥ T_iso then
    pure ("ISOLATION_ONLY", ["High isolation without high addiction-risk"])
  else
    pure ("LOW_RISK", ["No thresholds triggered"])

/-- `app.py` `toxic_flag`: `int(p_toxic >= T_toxic)`. -/
def toxic_flag (p_toxic T_toxic : ℚ) : Nat :=
  if p_toxic ≥ T_toxic then 1 else 0

/-- The record of per-message model outputs built in `app.py` (the
`per_msg_outputs` entries) and consumed by the fusion pipeline. -/
structure RiskProbs where
  p_relapse : ℚ
  p_craving : ℚ
  p_negative_mood : ℚ
  p_neutral : ℚ
  p_toxic : ℚ
  p_isolation : ℚ
deriving Repr, DecidableEq

/-- The `app.py` call-site composition for a single message: compute
`risk_score` from the probability vector, then apply the fusion
decision to it (lines 173-227, specialised to one message). -/
def message_fusion (p : RiskProbs) (neg_weight : ℚ) (thresholds : Thresholds) :
    Option (String × List String) :=
  apply_fusion_v2
    (compute_risk_score p.p_relapse p.p_craving p.p_negative_mood neg_weight)
    p.p_relapse p.p_craving p.p_isolation thresholds

/-- The `WindowMetrics` aggregate returned by
`TemporalRiskEngine.compute_window_metrics`. -/
structure WindowMetrics where
  avg_risk_score : ℚ
  max_risk_score : ℚ
  avg_isolation : ℚ
  high_risk_count : Nat
  toxic_incidents : Nat
  message_count : Nat
deriving Repr, DecidableEq

/-- The zero record returned for an empty window. -/
def zeroWindowMetrics : WindowMetrics :=
  { avg_risk_score := 0
    max_risk_score := 0
    avg_isolation := 0
    high_risk_count := 0
    toxic_incidents := 0
    message_count := 0 }

/-- `np.mean` over a nonempty list given as head and tail. -/
def listMean (x : ℚ) (xs : List ℚ) : ℚ :=
  (x + xs.sum) / (1 + xs.length)

/-- `np.max` / Python `max` over a nonempty list given as head and tail. -/
def listMax (x : ℚ) (xs : List ℚ) : ℚ :=
  xs.foldl max x

/-- `TemporalRiskEngine.compute_window_metrics`: filter the message
list to `timestamp >= now - window_days` and aggregate; empty input or
empty window yields the zero record. -/
def compute_window_metrics (now : Int) (messages : List Msg) (window_days : Nat) :
    WindowMetrics :=
  match messages with
  | [] => zeroWindowMetrics
  | _ :: _ =>
    let cutoff : Int := now - 24 * (window_days : Int)
    let windowed := messages.filter (fun m => m.timestamp ≥ cutoff)
    match windowed with
    | [] => zeroWindowMetrics
    | w :: ws =>
      { avg_risk_score := listMean w.risk_score (ws.map (·.risk_score))
        max_risk_score := listMax w.risk_score (ws.map (·.risk_score))
        avg_isolation := listMean w.p_isolation (ws.map (·.p_isolation))
        high_risk_count :=
          ((w :: ws).filter
            (fun m => m.risk_score ≥ 7/10 ∨ m.p_relapse ≥ 1/2 ∨ m.p_craving ≥ 1/2)).length
        toxic_incidents := ((w :: ws).filter (fun m => m.p_toxic ≥ 7/10)).length
        message_count := (w :: ws).length }

/-- `TemporalRiskEngine.detect_trend`: classify the direction of a
metric over the message history.  `metric` is the field selector
(`risk_score` or `p_isolation` at the call sites). -/
def detect_trend (now : Int) (messages : List Msg) (metric : Msg → ℚ) : String :=
  if messages.length < 5 then "stable"
  else
    let recent_7d := messages.filter (fun m => days (now - m.timestamp) ≤ 7)
    let previous_7d := messages.filter
      (fun m => 7 < days (now - m.timestamp) ∧ days (now - m.timestamp) ≤ 14)
    match recent_7d, previous_7d with
    | [], _ => "stable"
    | _ :: _, [] => "stable"
    | r :: rs, p :: ps =>
      let recent_avg := listMean (metric r) (rs.map metric)
      let previous_avg := listMean (metric p) (ps.map metric)
      let delta := recent_avg - previous_avg
      let last_2d := messages.filter (fun m => days (now - m.timestamp) ≤ 2)
      let spiked : Bool :=
        match last_2d with
        | [] => false
        | l :: ls => decide (listMax (metric l) (ls.map metric) ≥ 4/5)
      if spiked then "rapid_decline"
      else if delta < -(3/20) then "improving"
      else if delta > 3/20 then "declining"
      else "stable"

/-- The engagement record returned by
`TemporalRiskEngine.compute_engagement_metrics`. -/
structure Engagement where
  total_messages_7d : Nat
  buddy_messages_7d : Nat
  counselor_messages_7d : Nat
  last_message_time : Option Int
  days_since_last_buddy_msg : Int
deriving Repr, DecidableEq

/-- `TemporalRiskEngine.compute_engagement_metrics`: message counts in
the trailing 7 days split by conversation type, plus the buddy-silence
duration (sentinel 999 when the 7-day buddy list is empty). -/
def compute_engagement_metrics (now : Int) (messages : List Msg) : Engagement :=
  let messages_7d := messages.filter (fun m => days (now - m.timestamp) ≤ 7)
  let buddy_msgs := messages_7d.filter (fun m => m.conversation_type = "buddy")
  let counselor_msgs := messages_7d.filter (fun m => m.conversation_type = "counselor")
  let days_since_buddy : Int :=
    match buddy_msgs with
    | [] => 999
    | b :: bs => days (now - (bs.map (·.timestamp)).foldl max b.timestamp)
  let last_msg_time : Option Int :=
    match messages with
    | [] => none
    | m :: ms => some ((ms.map (·.timestamp)).foldl max m.timestamp)
  { total_messages_7d := messages_7d.length
    buddy_messages_7d := buddy_msgs.length
    counselor_messages_7d := counselor_msgs.length
    last_message_time := last_msg_time
    days_since_last_buddy_msg := days_since_buddy }

/-- `TemporalRiskEngine.apply_final_risk_decision`: the user-level
fusion ladder.  Threshold keys are read with `thresholds.get(key,
default)`, i.e. an absent key silently falls back to the hardcoded
default written in the source. -/
def apply_final_risk_decision (short_metrics medium_metrics : WindowMetrics)
    (engagement : Engagement) (risk_trend isolation_trend : String)
    (thresholds : Thresholds) : String × List String :=
  let short_max_risk := short_metrics.max_risk_score
  let short_avg_risk := short_metrics.avg_risk_score
  let short_high_count := short_metrics.high_risk_count
  let short_avg_iso := short_metrics.avg_isolation
  if short_max_risk ≥ thresholds.T_high.getD (7/10) then
    ("HIGH_RISK", ["Max risk score in last 7 days: " ++ toString short_max_risk])
  else if short_high_count ≥ 3 then
    ("HIGH_RISK", ["Multiple high-risk messages in short window: " ++ toString short_high_count])
  else if risk_trend = "rapid_decline" then
    ("HIGH_RISK", ["Detected rapid decline in user state"])
  else if short_avg_risk ≥ thresholds.T_iso_escalate.getD (7/10) ∧
      short_avg_iso ≥ thresholds.T_iso.getD (9/10) then
    ("HIGH_RISK", ["Isolation escalating moderate base risk"])
  else if short_avg_risk ≥ thresholds.T_mid.getD (3/10) then
    ("MODERATE_RISK", ["Average risk score elevated: " ++ toString short_avg_risk])
  else if risk_trend = "declining" then
    ("MODERATE_RISK", ["Risk trend is declining (worsening)"])
  else if engagement.days_since_last_buddy_msg > 5 ∧ short_avg_risk > 1/5 then
    ("MODERATE_RISK", ["Social withdrawal + mild risk"])
  else if short_avg_iso ≥ thresholds.T_iso.getD (9/10) ∧ short_avg_risk < 3/10 then
    ("ISOLATION_ONLY", ["High isolation without addiction risk"])
  else
    ("LOW_RISK", ["No significant risk indicators"])

/-- The `predictions` dict passed to `store_message_prediction`; every
key may be absent (the source reads each with `predictions.get(key,
0.0)`). -/
structure Predictions where
  p_craving : Option ℚ := none
  p_relapse : Option ℚ := none
  p_negative_mood : Option ℚ := none
  p_neutral : Option ℚ := none
  p_toxic : Option ℚ := none
  p_isolation : Option ℚ := none
  risk_score : Option ℚ := none
deriving Repr, DecidableEq

/-- The `message_predictions` table, as a list of rows.  The SQL
`UNIQUE (user_id, timestamp)` constraint is maintained by
`store_message_prediction` itself. -/
abbrev MsgStore := List Msg

/-- `TemporalRiskEngine.store_message_prediction`: insert a prediction
row, or — on a `(user_id, timestamp)` conflict — update the existing
row in place, setting exactly the columns listed in the SQL `SET`
clause (`message_text` and the seven prediction fields;
`conversation_type` is not in the `SET` clause and keeps its stored
value). -/
def store_message_prediction (store : MsgStore) (user_id message_text : String)
    (predictions : Predictions) (conversation_type : String)
    (timestamp : Option Int) (now : Int) : MsgStore :=
  let ts := timestamp.getD now
  if store.any (fun m => m.user_id = user_id ∧ m.timestamp = ts) then
    store.map (fun m =>
      if m.user_id = user_id ∧ m.timestamp = ts then
        { m with
          message_text := message_text
          p_craving := predictions.p_craving.getD 0
          p_relapse := predictions.p_relapse.getD 0
          p_negative_mood := predictions.p_negative_mood.getD 0
          p_neutral := predictions.p_neutral.getD 0
          p_toxic := predictions.p_toxic.getD 0
          p_isolation := predictions.p_isolation.getD 0
          risk_score := predictions.risk_score.getD 0 }
      else m)
  else
    store ++ [{ user_id := user_id
                message_text := message_text
                timestamp := ts
                p_craving := predictions.p_craving.getD 0
                p_relapse := predictions.p_relapse.getD 0
                p_negative_mood := predictions.p_negative_mood.getD 0
                p_neutral := predictions.p_neutral.getD 0
                p_toxic := predictions.p_toxic.getD 0
                p_isolation := predictions.p_isolation.getD 0
                risk_score := predictions.risk_score.getD 0
                conversation_type := conversation_type }]

/-- `TemporalRiskEngine.get_user_messages`: the rows of the user whose
timestamp lies within `days_back` days of `now`.  (The SQL orders the
result ascending by timestamp; every consumer aggregates
order-insensitively, so the row order of the store is kept.) -/
def get_user_messages (store : MsgStore) (user_id : String) (days_back : Nat)
    (now : Int) : List Msg :=
  store.filter (fun m => m.user_id = user_id ∧ m.timestamp ≥ now - 24 * (days_back : Int))

/-- One row of the `user_risk_profiles` table. -/
structure UserRiskProfile where
  user_id : String
  last_updated : Int
  short_avg_risk_score : ℚ
  short_max_risk_score : ℚ
  short_avg_isolation : ℚ
  short_high_risk_count : Nat
  short_toxic_incidents : Nat
  medium_avg_risk_score : ℚ
  medium_max_risk_score : ℚ
  medium_avg_isolation : ℚ
  risk_trend : String
  isolation_trend : String
  current_risk_label : String
  risk_label_since : Int
  total_messages_7d : Nat
  buddy_messages_7d : Nat
  counselor_messages_7d : Nat
  last_message_time : Option Int
  days_since_last_buddy_msg : Int
  last_login_time : Int
  days_since_last_login : Int
deriving Repr, DecidableEq

/-- The `user_risk_profiles` table, keyed by `user_id` (primary key). -/
abbrev ProfileStore := List UserRiskProfile

/-- The SQL `INSERT ... ON CONFLICT (user_id) DO UPDATE` of
`update_user_risk_profile`: the `SET` clause lists every non-key
column, so a conflicting row is replaced wholesale. -/
def upsertProfile (store : ProfileStore) (p : UserRiskProfile) : ProfileStore :=
  if store.any (fun q => q.user_id = p.user_id) then
    store.map (fun q => if q.user_id = p.user_id then p else q)
  else
    store ++ [p]

/-- Row lookup by primary key. -/
def lookupProfile (store : ProfileStore) (user_id : String) : Option UserRiskProfile :=
  store.find? (fun q => q.user_id = user_id)

/-- The dict returned by `update_user_risk_profile`.  The zero-history
branch returns only `user_id`, `current_risk_label`, `message_count`
and `reasons`; the main branch returns the full profile (without a
`message_count` key).  Absent keys are `none`. -/
structure ProfileReturn where
  user_id : String
  current_risk_label : String
  reasons : List String
  message_count : Option Nat := none
  risk_label_since : Option Int := none
  short_window : Option WindowMetrics := none
  medium_window : Option WindowMetrics := none
  engagement : Option Engagement := none
  risk_trend : Option String := none
  isolation_trend : Option String := none
  last_updated : Option Int := none
deriving Repr, DecidableEq

/-- `TemporalRiskEngine.update_user_risk_profile`: the main entry
point.  Reads the user's last-30-day messages, aggregates windows,
trends and engagement, applies the user-level fusion decision,
preserves `risk_label_since` across recomputations with an unchanged
label, and upserts the profile row.  Returns the profile dict together
with the updated `user_risk_profiles` table. -/
def update_user_risk_profile (msgStore : MsgStore) (profStore : ProfileStore)
    (user_id : String) (thresholds : Thresholds) (login_timestamp : Option Int)
    (now : Int) : ProfileReturn × ProfileStore :=
  let messages := get_user_messages msgStore user_id 30 now
  match messages with
  | [] =>
    ({ user_id := user_id
       current_risk_label := "LOW_RISK"
       message_count := some 0
       reasons := ["No message history"] }, profStore)
  | _ :: _ =>
    let short_metrics := compute_window_metrics now messages 7
    let medium_metrics := compute_window_metrics now messages 30
    let risk_trend := detect_trend now messages (·.risk_score)
    let isolation_trend := detect_trend now messages (·.p_isolation)
    let engagement := compute_engagement_metrics now messages
    let decision := apply_final_risk_decision short_metrics medium_metrics
      engagement risk_trend isolation_trend thresholds
    let risk_label := decision.1
    let reasons := decision.2
    let existing := lookupProfile profStore user_id
    let risk_label_since : Int :=
      match existing with
      | some q => if q.current_risk_label = risk_label then q.risk_label_since else now
      | none => now
    let newProfile : UserRiskProfile :=
      { user_id := user_id
        last_updated := now
        short_avg_risk_score := short_metrics.avg_risk_score
        short_max_risk_score := short_metrics.max_risk_score
        short_avg_isolation := short_metrics.avg_isolation
        short_high_risk_count := short_metrics.high_risk_count
        short_toxic_incidents := short_metrics.toxic_incidents
        medium_avg_risk_score := medium_metrics.avg_risk_score
        medium_max_risk_score := medium_metrics.max_risk_score
        medium_avg_isolation := medium_metrics.avg_isolation
        risk_trend := risk_trend
        isolation_trend := isolation_trend
        current_risk_label := risk_label
        risk_label_since := risk_label_since
        total_messages_7d := engagement.total_messages_7d
        buddy_messages_7d := engagement.buddy_messages_7d
        counselor_messages_7d := engagement.counselor_messages_7d
        last_message_time := engagement.last_message_time
        days_since_last_buddy_msg := engagement.days_since_last_buddy_msg
        last_login_time := login_timestamp.getD now
        days_since_last_login :=
          match login_timestamp with
          | some t => days (now - t)
          | none => 0 }
    ({ user_id := user_id
       current_risk_label := risk_label
       risk_label_since := some risk_label_since
       reasons := reasons
       short_window := some short_metrics
       medium_window := some medium_metrics
       engagement := some engagement
       risk_trend := some risk_trend
       isolation_trend := some isolation_trend
       last_updated := some now }, upsertProfile profStore newProfile)

/-- `TemporalRiskEngine.get_users_needing_check_in`: user ids of
stored profiles with `days_since_last_buddy_msg >= days_silent` and a
label other than HIGH_RISK.  (The SQL result order — descending
silence — does not affect membership.) -/
def get_users_needing_check_in (store : ProfileStore) (days_silent : Int) :
    List String :=
  ((store.filter (fun q =>
      q.days_since_last_buddy_msg ≥ days_silent ∧
      q.current_risk_label ≠ "HIGH_RISK")).map (·.user_id))

/-- The `CASE current_risk_label` priority key of
`get_all_user_profiles`. -/
def labelPriority (label : String) : Nat :=
  if label = "HIGH_RISK" then 1
  else if label = "MODERATE_RISK" then 2
  else if label = "ISOLATION_ONLY" then 3
  else 4

/-- The `ORDER BY` comparison of `get_all_user_profiles`: label
priority ascending, then short-window average risk descending. -/
def profileLE (p q : UserRiskProfile) : Bool :=
  decide (labelPriority p.current_risk_label < labelPriority q.current_risk_label) ||
    (decide (labelPriority p.current_risk_label = labelPriority q.current_risk_label) &&
      decide (p.short_avg_risk_score ≥ q.short_avg_risk_score))

/-- Insertion step of the sort modelling the SQL `ORDER BY`. -/
def orderedInsert (le : UserRiskProfile → UserRiskProfile → Bool)
    (p : UserRiskProfile) : List UserRiskProfile → List UserRiskProfile
  | [] => [p]
  | q :: qs => if le p q then p :: q :: qs else q :: orderedInsert le p qs

/-- Insertion sort modelling the SQL `ORDER BY`. -/
def sortProfiles (le : UserRiskProfile → UserRiskProfile → Bool) :
    List UserRiskProfile → List UserRiskProfile
  | [] => []
  | p :: ps => orderedInsert le p (sortProfiles le ps)

/-- `TemporalRiskEngine.get_all_user_profiles`: all stored profile
rows, ordered by label priority and then by descending short-window
average risk. -/
def get_all_user_profiles (store : ProfileStore) : List UserRiskProfile :=
  sortProfiles profileLE store

/-- Spec-side rule evaluator, following the spec's words for the Risk
Fusion Decision: rules are checked in strict priority order, the first
matching rule wins, and the reasons list contains only the
justification of the winning rule (falling back to the default rule
when none matches). -/
def specFirstMatch : List (Bool × String × List String) → String × List String →
    String × List String
  | [], dflt => dflt
  | (c, l, r) :: rest, dflt => if c then (l, r) else specFirstMatch rest dflt

/-- The message-level rule ladder of the spec (conditions, labels and
reasons of rules 1-4; rule 5 is the default). -/
def messageRuleTable (risk_score p_relapse p_craving p_isolation : ℚ)
    (v : ThresholdVals) : List (Bool × String × List String) :=
  [ (decide (p_relapse ≥ v.T_relapse ∨ p_craving ≥ v.T_craving ∨ risk_score ≥ v.T_high),
      "HIGH_RISK", ["Acute addiction-risk trigger (relapse/craving/high risk_score)"]),
    (decide (risk_score ≥ v.T_iso_escalate ∧ p_isolation ≥ v.T_iso),
      "HIGH_RISK", ["Isolation escalated risk because risk_score was already high-ish"]),
    (decide (risk_score ≥ v.T_mid),
      "MODERATE_RISK", ["Moderate vulnerability detected (risk_score >= T_mid)"]),
    (decide (p_isolation ≥ v.T_iso),
      "ISOLATION_ONLY", ["High isolation without high addiction-risk"]) ]

/-- The user-level rule ladder of the spec (conditions, labels and
reasons of rules 1-8; rule 9 is the default). -/
def userRuleTable (short_metrics : WindowMetrics) (engagement : Engagement)
    (risk_trend : String) (v : ThresholdVals) : List (Bool × String × List String) :=
  [ (decide (short_metrics.max_risk_score ≥ v.T_high), "HIGH_RISK",
      ["Max risk score in last 7 days: " ++ toString short_metrics.max_risk_score]),
    (decide (short_metrics.high_risk_count ≥ 3), "HIGH_RISK",
      ["Multiple high-risk messages in short window: " ++
        toString short_metrics.high_risk_count]),
    (decide (risk_trend = "rapid_decline"), "HIGH_RISK",
      ["Detected rapid decline in user state"]),
    (decide (short_metrics.avg_risk_score ≥ v.T_iso_escalate ∧
        short_metrics.avg_isolation ≥ v.T_iso), "HIGH_RISK",
      ["Isolation escalating moderate base risk"]),
    (decide (short_metrics.avg_risk_score ≥ v.T_mid), "MODERATE_RISK",
      ["Average risk score elevated: " ++ toString short_metrics.avg_risk_score]),
    (decide (risk_trend = "declining"), "MODERATE_RISK",
      ["Risk trend is declining (worsening)"]),
    (decide (engagement.days_since_last_buddy_msg > 5 ∧
        short_metrics.avg_risk_score > 1/5), "MODERATE_RISK",
      ["Social withdrawal + mild risk"]),
    (decide (short_metrics.avg_isolation ≥ v.T_iso ∧
        short_metrics.avg_risk_score < 3/10), "ISOLATION_ONLY",
      ["High isolation without addiction risk"]) ]

/-- C1: both fusion variants evaluate their rules in strict priority
order and return the label of the first rule whose condition holds,
with the reasons list containing only the winning rule's
justification; in particular, when the rule-1 HIGH_RISK condition and
the later MODERATE_RISK condition hold simultaneously (risk_score=0.9,
p_relapse=0.9 against T_relapse=0.8, T_mid=0.3), the result is
HIGH_RISK. -/
theorem fusion_first_match_priority :
    (∀ (v : ThresholdVals) (risk_score p_relapse p_craving p_isolation : ℚ),
      apply_fusion_v2 risk_score p_relapse p_craving p_isolation v.toThresholds =
        some (specFirstMatch
          (messageRuleTable risk_score p_relapse p_craving p_isolation v)
          ("LOW_RISK", ["No thresholds triggered"]))) ∧
    (∀ (v : ThresholdVals) (sm mm : WindowMetrics) (e : Engagement) (rt it : String),
      apply_final_risk_decision sm mm e rt it v.toThresholds =
        specFirstMatch (userRuleTable sm e rt v)
          ("LOW_RISK", ["No significant risk indicators"])) ∧
    apply_fusion_v2 (9/10) (9/10) 0 0
      (ThresholdVals.toThresholds
        ⟨8/10, 8/10, 95/100, 3/10, 9/10, 7/10, 7/10⟩) =
      some ("HIGH_RISK",
        ["Acute addiction-risk trigger (relapse/craving/high risk_score)"]) ∧
    (apply_final_risk_decision
      { avg_risk_score := 9/10, max_risk_score := 9/10, avg_isolation := 0,
        high_risk_count := 0, toxic_incidents := 0, message_count := 1 }
      zeroWindowMetrics
      { total_messages_7d := 1, buddy_messages_7d := 1, counselor_messages_7d := 0,
        last_message_time := none, days_since_last_buddy_msg := 0 }
      "stable" "stable"
      (ThresholdVals.toThresholds
        ⟨8/10, 8/10, 8/10, 3/10, 9/10, 7/10, 7/10⟩)).1 = "HIGH_RISK" := by
  refine ⟨?_, ?_,
    by norm_num [apply_fusion_v2, ThresholdVals.toThresholds, Option.pure_def,
      Option.bind_eq_bind, Option.some_bind],
    by norm_num [apply_final_risk_decision, ThresholdVals.toThresholds]⟩
  · intro v rs pr pc pi
    simp only [apply_fusion_v2, ThresholdVals.toThresholds,
      messageRuleTable, specFirstMatch, decide_eq_true_eq, Option.pure_def,
      Option.bind_eq_bind, Option.some_bind]
    split_ifs <;> rfl
  · intro v sm mm e rt it
    simp only [apply_final_risk_decision, ThresholdVals.toThresholds,
      Option.getD_some, userRuleTable, specFirstMatch, decide_eq_true_eq]

/-- C9: toxicity never influences the risk label.  At message level,
changing `p_toxic` alone changes neither the computed `risk_score` nor
the fusion result; at user level, changing `toxic_incidents` in either
window leaves the decision (label and reasons) unchanged. -/
theorem toxicity_never_influences_label :
    (∀ (p : RiskProbs) (x neg_weight : ℚ) (th : Thresholds),
      message_fusion { p with p_toxic := x } neg_weight th =
        message_fusion p neg_weight th) ∧
    (∀ (sm mm : WindowMetrics) (j k : Nat) (e : Engagement) (rt it : String)
        (th : Thresholds),
      apply_final_risk_decision { sm with toxic_incidents := j }
          { mm with toxic_incidents := k } e rt it th =
        apply_final_risk_decision sm mm e rt it th) :=
  ⟨fun _ _ _ _ => rfl, fun _ _ _ _ _ _ _ _ => rfl⟩

/-- The four `thresholds.get(key, default)` fallbacks hardcoded in
`apply_final_risk_decision`, made explicit: fill each key the function
reads with its default when absent. -/
def fillEngineDefaults (t : Thresholds) : Thresholds :=
  { t with
    T_high := some (t.T_high.getD (7/10))
    T_mid := some (t.T_mid.getD (3/10))
    T_iso := some (t.T_iso.getD (9/10))
    T_iso_escalate := some (t.T_iso_escalate.getD (7/10)) }

/-- C2 counterexample: with every threshold key absent, the user-level
fusion does not fail — it classifies using the hardcoded default
`T_high = 0.7` (a short-window max of 0.75 becomes HIGH_RISK). -/
theorem missing_thresholds_still_decide :
    ({} : Thresholds).T_high = none ∧
    (apply_final_risk_decision
      { avg_risk_score := 0, max_risk_score := 3/4, avg_isolation := 0,
        high_risk_count := 0, toxic_incidents := 0, message_count := 1 }
      zeroWindowMetrics
      { total_messages_7d := 1, buddy_messages_7d := 1, counselor_messages_7d := 0,
        last_message_time := none, days_since_last_buddy_msg := 0 }
      "stable" "stable" ({} : Thresholds)).1 = "HIGH_RISK" := by
  constructor
  · rfl
  · norm_num [apply_final_risk_decision]

/-- C2 amended: the message-level `apply_fusion_v2` fails fast exactly
when one of the six keys it reads (`T_relapse, T_craving, T_high,
T_mid, T_iso, T_iso_escalate`) is absent, while the user-level
`apply_final_risk_decision` never fails — an absent key among the four
it reads is silently replaced by the hardcoded defaults 0.7, 0.3, 0.9,
0.7 (and `T_toxic` is read by neither fusion function). -/
theorem threshold_key_handling :
    (∀ (rs pr pc pi : ℚ) (t : Thresholds),
      apply_fusion_v2 rs pr pc pi t = none ↔
        (t.T_relapse = none ∨ t.T_craving = none ∨ t.T_high = none ∨
         t.T_mid = none ∨ t.T_iso = none ∨ t.T_iso_escalate = none)) ∧
    (∀ (sm mm : WindowMetrics) (e : Engagement) (rt it : String) (t : Thresholds),
      apply_final_risk_decision sm mm e rt it t =
        apply_final_risk_decision sm mm e rt it (fillEngineDefaults t)) := by
  constructor
  · intro rs pr pc pi t
    obtain ⟨t1, t2, t3, t4, t5, t6, t7⟩ := t
    cases t1 <;> cases t2 <;> cases t3 <;> cases t4 <;> cases t5 <;> cases t6 <;>
      simp only [apply_fusion_v2, Option.pure_def, Option.bind_eq_bind,
        Option.some_bind, Option.none_bind] <;>
      simp_all <;> split_ifs <;> simp
  · intro sm mm e rt it t
    simp only [apply_final_risk_decision, fillEngineDefaults, Option.getD_some]

/-- C2 amended, witness: with only `T_mid` absent the message-level
fusion fails, with all six present it succeeds, and the user-level
decision on a partial configuration agrees with the default-filled
one. -/
theorem threshold_key_handling_witness :
    apply_fusion_v2 0 0 0 0
      { T_relapse := some 1, T_craving := some 1, T_high := some 1,
        T_mid := none, T_iso := some 1, T_iso_escalate := some 1 } = none ∧
    (apply_final_risk_decision zeroWindowMetrics zeroWindowMetrics
      { total_messages_7d := 0, buddy_messages_7d := 0, counselor_messages_7d := 0,
        last_message_time := none, days_since_last_buddy_msg := 0 }
      "stable" "stable" ({} : Thresholds) =
      apply_final_risk_decision zeroWindowMetrics zeroWindowMetrics
        { total_messages_7d := 0, buddy_messages_7d := 0, counselor_messages_7d := 0,
          last_message_time := none, days_since_last_buddy_msg := 0 }
        "stable" "stable" (fillEngineDefaults ({} : Thresholds))) := by
  constructor
  · exact (threshold_key_handling.1 0 0 0 0 _).mpr (Or.inr (Or.inr (Or.inr (Or.inl rfl))))
  · exact threshold_key_handling.2 zeroWindowMetrics zeroWindowMetrics _ "stable" "stable" {}

/-- The seed of a left fold by `max` bounds the fold from below. -/
theorem base_le_foldl_max {α : Type} [LinearOrder α] (x : α) (xs : List α) :
    x ≤ xs.foldl max x := by
  induction xs generalizing x with
  | nil => exact le_rfl
  | cons a as ih => exact le_trans (le_max_left x a) (ih (max x a))

/-- Every list element bounds a left fold by `max` from below. -/
theorem mem_le_foldl_max {α : Type} [LinearOrder α] {y : α} (x : α) {xs : List α}
    (h : y ∈ xs) : y ≤ xs.foldl max x := by
  induction xs generalizing x with
  | nil => cases h
  | cons a as ih =>
    rcases List.mem_cons.mp h with h | h
    · subst h; exact le_trans (le_max_right x y) (base_le_foldl_max _ _)
    · exact ih (max x a) h

/-- A left fold by `max` is attained: it is the seed or a list element. -/
theorem foldl_max_attained {α : Type} [LinearOrder α] (x : α) (xs : List α) :
    xs.foldl max x = x ∨ xs.foldl max x ∈ xs := by
  induction xs generalizing x with
  | nil => exact Or.inl rfl
  | cons a as ih =>
    rcases ih (max x a) with h | h
    · rcases max_choice x a with hx | hx
      · exact Or.inl (by rw [List.foldl_cons, h, hx])
      · exact Or.inr (by rw [List.foldl_cons, h, hx]; exact List.mem_cons_self a as)
    · exact Or.inr (List.mem_cons_of_mem a h)

/-- A message in "u"'s history with the given timestamp, risk score and
conversation type, all other prediction fields zero (concrete inputs
for witnesses). -/
def mkMsg (ts : Int) (risk : ℚ) (ctype : String) : Msg :=
  { user_id := "u", message_text := "m", timestamp := ts, p_craving := 0,
    p_relapse := 0, p_negative_mood := 0, p_neutral := 0, p_toxic := 0,
    p_isolation := 0, risk_score := risk, conversation_type := ctype }

/-- C5: with at least 5 messages and both comparison windows nonempty,
a metric value of at least 0.8 on some message in the last two days
forces `rapid_decline`, whatever the recent-vs-previous delta is. -/
theorem detect_trend_spike_override (now : Int) (messages : List Msg)
    (metric : Msg → ℚ) (h5 : 5 ≤ messages.length)
    (hr : messages.filter (fun m => days (now - m.timestamp) ≤ 7) ≠ [])
    (hp : messages.filter
      (fun m => 7 < days (now - m.timestamp) ∧ days (now - m.timestamp) ≤ 14) ≠ [])
    (m : Msg) (hm : m ∈ messages) (hm2 : days (now - m.timestamp) ≤ 2)
    (hm8 : metric m ≥ 4/5) :
    detect_trend now messages metric = "rapid_decline" := by
  simp only [detect_trend]
  rw [if_neg (by omega)]
  cases hR : messages.filter (fun m => days (now - m.timestamp) ≤ 7) with
  | nil => exact absurd hR hr
  | cons r rs =>
  cases hP : messages.filter
      (fun m => 7 < days (now - m.timestamp) ∧ days (now - m.timestamp) ≤ 14) with
  | nil => exact absurd hP hp
  | cons p ps =>
  have hmem : m ∈ messages.filter (fun m => days (now - m.timestamp) ≤ 2) :=
    List.mem_filter.mpr ⟨hm, by simpa using hm2⟩
  cases hL : messages.filter (fun m => days (now - m.timestamp) ≤ 2) with
  | nil => rw [hL] at hmem; cases hmem
  | cons l ls =>
    rw [hL] at hmem
    have hmax : 4/5 ≤ listMax (metric l) (ls.map metric) := by
      rcases List.mem_cons.mp hmem with h | h
      · exact le_trans hm8 (h ▸ base_le_foldl_max _ _)
      · exact le_trans hm8 (mem_le_foldl_max _ (List.mem_map_of_mem metric h))
    simp only [hR, hP, hL, listMax] at *
    simp
    intro hlt
    exact absurd hmax (not_le.mpr hlt)

/-- C5 witness: five messages whose 7-day average (0.25) lies far below
the previous-window average (1), so the delta alone would say
`improving`, but a last-2-days value of 1 ≥ 0.8 forces
`rapid_decline`. -/
theorem detect_trend_spike_override_witness :
    detect_trend 0
      [mkMsg (-240) 1 "buddy", mkMsg (-100) 0 "buddy", mkMsg (-100) 0 "buddy",
       mkMsg (-100) 0 "buddy", mkMsg (-10) 1 "buddy"] (·.risk_score) =
      "rapid_decline" :=
  detect_trend_spike_override 0 _ _ (by decide) (by decide) (by decide)
    (mkMsg (-10) 1 "buddy") (by decide) (by decide) (by norm_num [mkMsg])

/-- A user with no stored rows has an empty 30-day message query. -/
theorem get_user_messages_eq_nil_of_no_rows (msgStore : MsgStore) (uid : String)
    (days_back : Nat) (now : Int) (h : ∀ m ∈ msgStore, m.user_id ≠ uid) :
    get_user_messages msgStore uid days_back now = [] := by
  simp only [get_user_messages, List.filter_eq_nil_iff, decide_eq_true_eq, not_and]
  intro m hm hu
  exact absurd hu (h m hm)

/-- C6: a user with no stored messages gets a LOW_RISK profile whose
reasons list is exactly ["No message history"] (and a zero message
count), with no exception raised. -/
theorem zero_history_profile (msgStore : MsgStore) (profStore : ProfileStore)
    (uid : String) (th : Thresholds) (login : Option Int) (now : Int)
    (h : ∀ m ∈ msgStore, m.user_id ≠ uid) :
    (update_user_risk_profile msgStore profStore uid th login now).1 =
      { user_id := uid, current_risk_label := "LOW_RISK",
        message_count := some 0, reasons := ["No message history"] } := by
  simp only [update_user_risk_profile,
    get_user_messages_eq_nil_of_no_rows msgStore uid 30 now h]

/-- C6 witness: an empty message store yields the zero-history LOW_RISK
profile for user "alice". -/
theorem zero_history_profile_witness :
    (update_user_risk_profile [] [] "alice" {} none 0).1 =
      { user_id := "alice", current_risk_label := "LOW_RISK",
        message_count := some 0, reasons := ["No message history"] } :=
  zero_history_profile [] [] "alice" {} none 0 (by decide)

/-- C10: when the user has no messages in the last 30 days, the profile
recomputation writes nothing: the `user_risk_profiles` table is
returned unchanged, and a user absent from it stays absent from both
`get_all_user_profiles` and `get_users_needing_check_in`. -/
theorem no_recent_messages_no_write (msgStore : MsgStore) (profStore : ProfileStore)
    (uid : String) (th : Thresholds) (login : Option Int) (now : Int)
    (days_silent : Int)
    (h : ∀ m ∈ msgStore, m.user_id = uid → m.timestamp < now - 24 * 30) :
    (update_user_risk_profile msgStore profStore uid th login now).2 = profStore ∧
    ((∀ q ∈ profStore, q.user_id ≠ uid) →
      uid ∉ (get_all_user_profiles
        (update_user_risk_profile msgStore profStore uid th login now).2).map
          (·.user_id) ∧
      uid ∉ get_users_needing_check_in
        (update_user_risk_profile msgStore profStore uid th login now).2
          days_silent) := by
  have hempty : get_user_messages msgStore uid 30 now = [] := by
    simp only [get_user_messages, List.filter_eq_nil_iff, decide_eq_true_eq, not_and]
    intro m hm hu
    exact not_le.mpr (h m hm hu)
  have hsame : (update_user_risk_profile msgStore profStore uid th login now).2 =
      profStore := by
    simp only [update_user_risk_profile, hempty]
  refine ⟨hsame, fun habs => ⟨?_, ?_⟩⟩
  · rw [hsame]
    intro hmem
    rcases List.mem_map.mp hmem with ⟨q, hq, hquid⟩
    have hq' : q ∈ profStore := by
      have hperm : ∀ (l : List UserRiskProfile) (x : UserRiskProfile),
          x ∈ sortProfiles profileLE l → x ∈ l := by
        intro l
        induction l with
        | nil => intro x hx; exact absurd hx (by simp [sortProfiles])
        | cons a as ih =>
          intro x hx
          simp only [sortProfiles] at hx
          have hins : ∀ (p : UserRiskProfile) (ys : List UserRiskProfile),
              x ∈ orderedInsert profileLE p ys → x = p ∨ x ∈ ys := by
            intro p ys
            induction ys with
            | nil => intro hy; simpa [orderedInsert] using hy
            | cons b bs ihb =>
              intro hy
              simp only [orderedInsert] at hy
              by_cases hle : profileLE p b
              · rw [if_pos hle] at hy
                rcases List.mem_cons.mp hy with h1 | h1
                · exact Or.inl h1
                · exact Or.inr h1
              · rw [if_neg hle] at hy
                rcases List.mem_cons.mp hy with h1 | h1
                · exact Or.inr (h1 ▸ List.mem_cons_self b bs)
                · rcases ihb h1 with h2 | h2
                  · exact Or.inl h2
                  · exact Or.inr (List.mem_cons_of_mem b h2)
          rcases hins a (sortProfiles profileLE as) hx with h1 | h1
          · exact h1 ▸ List.mem_cons_self a as
          · exact List.mem_cons_of_mem a (ih x h1)
      exact hperm profStore q hq
    exact absurd hquid (habs q hq')
  · rw [hsame]
    intro hmem
    simp only [get_users_needing_check_in, List.mem_map] at hmem
    rcases hmem with ⟨q, hq, hquid⟩
    exact absurd hquid (habs q (List.mem_filter.mp hq).1)

/-- C10 witness: a store holding only a 40-day-old message for "u"
triggers no write on an empty profile table, and "u" appears in neither
listing. -/
theorem no_recent_messages_no_write_witness :
    (update_user_risk_profile [mkMsg (-960) 1 "buddy"] [] "u" {} none 0).2 = [] ∧
    ((∀ q ∈ ([] : ProfileStore), q.user_id ≠ "u") →
      "u" ∉ (get_all_user_profiles
        (update_user_risk_profile [mkMsg (-960) 1 "buddy"] [] "u" {} none 0).2).map
          (·.user_id) ∧
      "u" ∉ get_users_needing_check_in
        (update_user_risk_profile [mkMsg (-960) 1 "buddy"] [] "u" {} none 0).2 3) :=
  no_recent_messages_no_write [mkMsg (-960) 1 "buddy"] [] "u" {} none 0 3 (by decide)

/-- Filtering by the window predicate is idempotent, so
`compute_window_metrics` agrees with itself applied to the window
subset. -/
theorem compute_window_metrics_eq_on_subset (now : Int) (messages : List Msg)
    (w : Nat) :
    compute_window_metrics now messages w =
      compute_window_metrics now
        (messages.filter (fun m => m.timestamp ≥ now - 24 * (w : Int))) w := by
  unfold compute_window_metrics
  cases messages with
  | nil => rfl
  | cons a as =>
    cases hW : (a :: as).filter (fun m => decide (m.timestamp ≥ now - 24 * (w : Int))) with
    | nil => simp only [hW]
    | cons x xs =>
      have hidem : (x :: xs).filter
          (fun m => decide (m.timestamp ≥ now - 24 * (w : Int))) = x :: xs := by
        rw [← hW, List.filter_filter]
        simp
      simp only [hW, hidem]

/-- The window's `message_count` is the length of the window subset. -/
theorem compute_window_metrics_count (now : Int) (messages : List Msg) (w : Nat) :
    (compute_window_metrics now messages w).message_count =
      (messages.filter (fun m => m.timestamp ≥ now - 24 * (w : Int))).length := by
  unfold compute_window_metrics
  cases messages with
  | nil => rfl
  | cons a as =>
    cases hW : (a :: as).filter (fun m => decide (m.timestamp ≥ now - 24 * (w : Int))) with
    | nil => simp only [hW]; rfl
    | cons x xs => simp only [hW]

/-- Weakening the cutoff can only add rows to a timestamp filter. -/
theorem filter_ts_length_mono (l : List Msg) (c₁ c₂ : Int) (h : c₂ ≤ c₁) :
    (l.filter (fun m => m.timestamp ≥ c₁)).length ≤
      (l.filter (fun m => m.timestamp ≥ c₂)).length := by
  induction l with
  | nil => exact le_rfl
  | cons a as ih =>
    simp only [List.filter_cons, ge_iff_le] at ih ⊢
    by_cases h1 : c₁ ≤ a.timestamp
    · have h2 : c₂ ≤ a.timestamp := le_trans h h1
      simp [h1, h2]
      omega
    · by_cases h2 : c₂ ≤ a.timestamp <;> simp [h1, h2] <;> omega

/-- C7: `compute_window_metrics` aggregates exactly over the subset
with `timestamp >= now - window_days`: the result only depends on that
subset, `message_count` is its size and is monotone in the window
length, and a message exactly 8 days old is counted by the 30-day
window but not by the 7-day window. -/
theorem window_filtering :
    (∀ (now : Int) (messages : List Msg) (w : Nat),
      compute_window_metrics now messages w =
        compute_window_metrics now
          (messages.filter (fun m => m.timestamp ≥ now - 24 * (w : Int))) w) ∧
    (∀ (now : Int) (messages : List Msg) (w : Nat),
      (compute_window_metrics now messages w).message_count =
        (messages.filter (fun m => m.timestamp ≥ now - 24 * (w : Int))).length) ∧
    (∀ (now : Int) (messages : List Msg) (w₁ w₂ : Nat), w₁ ≤ w₂ →
      (compute_window_metrics now messages w₁).message_count ≤
        (compute_window_metrics now messages w₂).message_count) ∧
    (compute_window_metrics 0 [mkMsg (-192) 1 "buddy"] 30).message_count = 1 ∧
    (compute_window_metrics 0 [mkMsg (-192) 1 "buddy"] 7).message_count = 0 := by
  refine ⟨compute_window_metrics_eq_on_subset, compute_window_metrics_count,
    ?_, by decide, by decide⟩
  intro now messages w₁ w₂ h
  rw [compute_window_metrics_count, compute_window_metrics_count]
  exact filter_ts_length_mono messages _ _ (by push_cast; omega)

/-- C7 witness: on the 8-day-old message, the 7-day count (0) is at
most the 30-day count (1). -/
theorem window_filtering_witness :
    (compute_window_metrics 0 [mkMsg (-192) 1 "buddy"] 7).message_count ≤
      (compute_window_metrics 0 [mkMsg (-192) 1 "buddy"] 30).message_count :=
  window_filtering.2.2.1 0 [mkMsg (-192) 1 "buddy"] 7 30 (by decide)

/-- C4 counterexample: a buddy message 10 days old exists, yet
`compute_engagement_metrics` returns the sentinel 999 instead of 10,
because it looks for buddy messages only inside the 7-day slice. -/
theorem buddy_sentinel_counterexample :
    (mkMsg (-240) 0 "buddy").conversation_type = "buddy" ∧
    (compute_engagement_metrics 0
      [mkMsg (-240) 0 "buddy"]).days_since_last_buddy_msg = 999 ∧
    days (0 - (mkMsg (-240) 0 "buddy").timestamp) = 10 ∧ (999 : Int) ≠ 10 := by
  exact ⟨rfl, rfl, by decide, by decide⟩

/-- C4 amended: `days_since_last_buddy_msg` is the sentinel 999 exactly
when no buddy message lies within the last 7 days (older buddy
messages do not count); when such a message exists, the result is the
day count since the most recent buddy message of that 7-day slice. -/
theorem buddy_sentinel (now : Int) (messages : List Msg) :
    ((compute_engagement_metrics now messages).days_since_last_buddy_msg = 999 ↔
      ∀ m ∈ messages, m.conversation_type = "buddy" →
        ¬ days (now - m.timestamp) ≤ 7) ∧
    ((∃ m ∈ messages, m.conversation_type = "buddy" ∧ days (now - m.timestamp) ≤ 7) →
      ∃ b ∈ messages, b.conversation_type = "buddy" ∧ days (now - b.timestamp) ≤ 7 ∧
        (compute_engagement_metrics now messages).days_since_last_buddy_msg =
          days (now - b.timestamp) ∧
        ∀ m ∈ messages, m.conversation_type = "buddy" →
          days (now - m.timestamp) ≤ 7 → m.timestamp ≤ b.timestamp) := by
  have hdef : (compute_engagement_metrics now messages).days_since_last_buddy_msg =
      match (messages.filter (fun m => days (now - m.timestamp) ≤ 7)).filter
          (fun m => m.conversation_type = "buddy") with
      | [] => (999 : Int)
      | b :: bs => days (now - (bs.map (·.timestamp)).foldl max b.timestamp) := rfl
  have hmem : ∀ m : Msg,
      m ∈ (messages.filter (fun m => days (now - m.timestamp) ≤ 7)).filter
          (fun m => m.conversation_type = "buddy") ↔
        m ∈ messages ∧ days (now - m.timestamp) ≤ 7 ∧
          m.conversation_type = "buddy" := by
    intro m
    simp only [List.mem_filter, decide_eq_true_eq, and_assoc]
  cases hB : (messages.filter (fun m => days (now - m.timestamp) ≤ 7)).filter
      (fun m => m.conversation_type = "buddy") with
  | nil =>
    rw [hB] at hdef
    constructor
    · constructor
      · intro _ m hm hc h7
        have hmm : m ∈ ([] : List Msg) := by
          rw [← hB]
          exact (hmem m).mpr ⟨hm, h7, hc⟩
        cases hmm
      · intro _
        exact hdef
    · rintro ⟨m, hm, hc, h7⟩
      have hmm : m ∈ ([] : List Msg) := by
        rw [← hB]
        exact (hmem m).mpr ⟨hm, h7, hc⟩
      cases hmm
  | cons b bs =>
    rw [hB] at hdef
    have hdef2 : (compute_engagement_metrics now messages).days_since_last_buddy_msg =
        days (now - (bs.map (·.timestamp)).foldl max b.timestamp) := hdef
    have hex : ∃ x ∈ b :: bs,
        (bs.map (·.timestamp)).foldl max b.timestamp = x.timestamp := by
      rcases foldl_max_attained b.timestamp (bs.map (·.timestamp)) with h | h
      · exact ⟨b, List.mem_cons_self b bs, h⟩
      · rcases List.mem_map.mp h with ⟨x, hx, hxe⟩
        exact ⟨x, List.mem_cons_of_mem b hx, hxe.symm⟩
    obtain ⟨x, hx, hxe⟩ := hex
    have hxbud : x ∈ messages ∧ days (now - x.timestamp) ≤ 7 ∧
        x.conversation_type = "buddy" := by
      refine (hmem x).mp ?_
      rw [hB]
      exact hx
    constructor
    · constructor
      · intro h999
        rw [hdef2, hxe] at h999
        have h7 := hxbud.2.1
        omega
      · intro hall
        exact absurd hxbud.2.1 (hall x hxbud.1 hxbud.2.2)
    · intro _
      refine ⟨x, hxbud.1, hxbud.2.2, hxbud.2.1, ?_, ?_⟩
      · rw [hdef2, hxe]
      · intro m hm hc h7
        have hmb : m ∈ b :: bs := by
          rw [← hB]
          exact (hmem m).mpr ⟨hm, h7, hc⟩
        rw [← hxe]
        rcases List.mem_cons.mp hmb with h | h
        · exact h ▸ base_le_foldl_max _ _
        · exact mem_le_foldl_max _ (List.mem_map_of_mem _ h)

/-- C4 amended, witness: a user whose only messages are counselor
messages gets the sentinel 999. -/
theorem buddy_sentinel_witness :
    (compute_engagement_metrics 0
      [mkMsg (-24) 0 "counselor"]).days_since_last_buddy_msg = 999 :=
  (buddy_sentinel 0 [mkMsg (-24) 0 "counselor"]).1.mpr (by decide)

/-- C8 counterexample: storing the same (user_id, timestamp) key twice
with different payloads updates the row in place but keeps the FIRST
call's `conversation_type` ("buddy"), contradicting the claim that
every field, `conversation_type` included, takes the second call's
values. -/
theorem store_prediction_counterexample :
    store_message_prediction
        (store_message_prediction [] "u" "first" {} "buddy" (some 0) 0)
        "u" "second" {} "counselor" (some 0) 0 =
      [{ user_id := "u", message_text := "second", timestamp := 0, p_craving := 0,
         p_relapse := 0, p_negative_mood := 0, p_neutral := 0, p_toxic := 0,
         p_isolation := 0, risk_score := 0, conversation_type := "buddy" }] ∧
    ("buddy" : String) ≠ "counselor" := by
  exact ⟨rfl, by decide⟩

/-- C8 amended: when the (user_id, timestamp) key already exists,
`store_message_prediction` creates no new row and rewrites the matching
row with the second call's `message_text`, probability fields and
`risk_score`, while `conversation_type` keeps the previously stored
value (it is absent from the SQL `SET` clause). -/
theorem store_prediction_upsert (store : MsgStore) (uid txt : String)
    (preds : Predictions) (ctype : String) (ts now : Int)
    (hexists : ∃ m ∈ store, m.user_id = uid ∧ m.timestamp = ts) :
    (store_message_prediction store uid txt preds ctype (some ts) now).length =
      store.length ∧
    ∀ m' ∈ store_message_prediction store uid txt preds ctype (some ts) now,
      m'.user_id = uid → m'.timestamp = ts →
      m'.message_text = txt ∧
      m'.p_craving = preds.p_craving.getD 0 ∧
      m'.p_relapse = preds.p_relapse.getD 0 ∧
      m'.p_negative_mood = preds.p_negative_mood.getD 0 ∧
      m'.p_neutral = preds.p_neutral.getD 0 ∧
      m'.p_toxic = preds.p_toxic.getD 0 ∧
      m'.p_isolation = preds.p_isolation.getD 0 ∧
      m'.risk_score = preds.risk_score.getD 0 ∧
      ∃ m ∈ store, m.user_id = uid ∧ m.timestamp = ts ∧
        m'.conversation_type = m.conversation_type := by
  have hany : store.any (fun m => decide (m.user_id = uid ∧ m.timestamp = ts)) = true := by
    rcases hexists with ⟨m, hm, hkey⟩
    exact List.any_eq_true.mpr ⟨m, hm, by simpa using hkey⟩
  unfold store_message_prediction
  simp only [Option.getD_some]
  rw [if_pos hany]
  constructor
  · exact List.length_map _ _
  · intro m' hm' hu ht
    rcases List.mem_map.mp hm' with ⟨m, hm, hfm⟩
    by_cases hkey : m.user_id = uid ∧ m.timestamp = ts
    · rw [if_pos hkey] at hfm
      subst hfm
      exact ⟨rfl, rfl, rfl, rfl, rfl, rfl, rfl, rfl, m, hm, hkey.1, hkey.2, rfl⟩
    · rw [if_neg hkey] at hfm
      subst hfm
      exact absurd ⟨hu, ht⟩ hkey

/-- C8 amended, witness: re-storing key ("u", 0) into a one-row store
leaves exactly one row. -/
theorem store_prediction_upsert_witness :
    (store_message_prediction [mkMsg 0 1 "buddy"] "u" "second" {} "counselor"
      (some 0) 5).length = 1 :=
  (store_prediction_upsert [mkMsg 0 1 "buddy"] "u" "second" {} "counselor" 0 5
    ⟨mkMsg 0 1 "buddy", by decide, by decide⟩).1

/-- After an in-place update of every row matching the key, primary-key
lookup returns the new row. -/
theorem find_map_update (s : List UserRiskProfile) (p : UserRiskProfile)
    (h : s.any (fun q => decide (q.user_id = p.user_id)) = true) :
    (s.map (fun q => if q.user_id = p.user_id then p else q)).find?
      (fun q => decide (q.user_id = p.user_id)) = some p := by
  induction s with
  | nil => simp at h
  | cons a as ih =>
    by_cases ha : a.user_id = p.user_id
    · simp only [List.map_cons, if_pos ha]
      exact List.find?_cons_of_pos _ (by simp)
    · simp only [List.map_cons, if_neg ha]
      rw [List.find?_cons_of_neg _ (by simpa using ha)]
      apply ih
      simpa [List.any_cons, ha] using h
/-- Appending a fresh row makes primary-key lookup return it when no
existing row matches. -/
theorem find_append_new (s : List UserRiskProfile) (p : UserRiskProfile)
    (h : s.any (fun q => decide (q.user_id = p.user_id)) = false) :
    (s ++ [p]).find? (fun q => decide (q.user_id = p.user_id)) = some p := by
  induction s with
  | nil => simp
  | cons a as ih =>
    simp only [List.any_cons, Bool.or_eq_false_iff] at h
    rw [List.cons_append, List.find?_cons_of_neg _ (by simp [h.1])]
    exact ih h.2

/-- Primary-key lookup after an upsert returns the upserted row. -/
theorem lookupProfile_upsert (s : ProfileStore) (p : UserRiskProfile) (uid : String)
    (huid : p.user_id = uid) : lookupProfile (upsertProfile s p) uid = some p := by
  subst huid
  unfold lookupProfile upsertProfile
  by_cases h : s.any (fun q => decide (q.user_id = p.user_id)) = true
  · rw [if_pos h]
    exact find_map_update s p h
  · rw [if_neg h]
    exact find_append_new s p (Bool.not_eq_true _ ▸ h)

/-- The risk label computed by `update_user_risk_profile` does not
depend on the previously stored profiles. -/
theorem update_label_indep (msgStore : MsgStore) (s₁ s₂ : ProfileStore)
    (uid : String) (th : Thresholds) (login : Option Int) (now : Int) :
    (update_user_risk_profile msgStore s₁ uid th login now).1.current_risk_label =
      (update_user_risk_profile msgStore s₂ uid th login now).1.current_risk_label := by
  unfold update_user_risk_profile
  cases get_user_messages msgStore uid 30 now <;> rfl

/-- One recomputation step, existing row present: the stored
`risk_label_since` is kept when the label is unchanged and reset to
`now` otherwise. -/
theorem hysteresis_step_some (msgStore : MsgStore) (profStore : ProfileStore)
    (uid : String) (th : Thresholds) (login : Option Int) (now : Int)
    (q : UserRiskProfile)
    (hne : get_user_messages msgStore uid 30 now ≠ [])
    (hq : lookupProfile profStore uid = some q) :
    (lookupProfile (update_user_risk_profile msgStore profStore uid th login now).2
        uid).map (·.risk_label_since) =
      some (if q.current_risk_label =
          (update_user_risk_profile msgStore profStore uid th login now).1.current_risk_label
        then q.risk_label_since else now) := by
  cases hM : get_user_messages msgStore uid 30 now with
  | nil => exact absurd hM hne
  | cons a as =>
    simp only [update_user_risk_profile, hM, hq, lookupProfile_upsert]
    rfl

/-- One recomputation step, no existing row: `risk_label_since` is set
to `now`. -/
theorem hysteresis_step_none (msgStore : MsgStore) (profStore : ProfileStore)
    (uid : String) (th : Thresholds) (login : Option Int) (now : Int)
    (hne : get_user_messages msgStore uid 30 now ≠ [])
    (hq : lookupProfile profStore uid = none) :
    (lookupProfile (update_user_risk_profile msgStore profStore uid th login now).2
        uid).map (·.risk_label_since) = some now := by
  cases hM : get_user_messages msgStore uid 30 now with
  | nil => exact absurd hM hne
  | cons a as =>
    simp only [update_user_risk_profile, hM, hq, lookupProfile_upsert]
    rfl

/-- The stored row after a recomputation carries the label that the
recomputation returned. -/
theorem update_lookup_label (msgStore : MsgStore) (profStore : ProfileStore)
    (uid : String) (th : Thresholds) (login : Option Int) (now : Int)
    (hne : get_user_messages msgStore uid 30 now ≠ []) :
    (lookupProfile (update_user_risk_profile msgStore profStore uid th login now).2
        uid).map (·.current_risk_label) =
      some (update_user_risk_profile msgStore profStore uid th login
        now).1.current_risk_label := by
  cases hM : get_user_messages msgStore uid 30 now with
  | nil => exact absurd hM hne
  | cons a as =>
    simp only [update_user_risk_profile, hM, lookupProfile_upsert]
    rfl

/-- C3: `risk_label_since` changes only on a label transition.  If the
stored label equals the newly computed one, the stored timestamp is
preserved; if it differs, or no profile row existed, it is set to the
recomputation time; and recomputing twice with unchanged inputs leaves
`risk_label_since` unchanged. -/
theorem risk_label_since_hysteresis :
    (∀ (msgStore : MsgStore) (profStore : ProfileStore) (uid : String)
        (th : Thresholds) (login : Option Int) (now : Int) (q : UserRiskProfile),
      get_user_messages msgStore uid 30 now ≠ [] →
      lookupProfile profStore uid = some q →
      (q.current_risk_label =
          (update_user_risk_profile msgStore profStore uid th login
            now).1.current_risk_label →
        (lookupProfile (update_user_risk_profile msgStore profStore uid th login now).2
            uid).map (·.risk_label_since) = some q.risk_label_since) ∧
      (q.current_risk_label ≠
          (update_user_risk_profile msgStore profStore uid th login
            now).1.current_risk_label →
        (lookupProfile (update_user_risk_profile msgStore profStore uid th login now).2
            uid).map (·.risk_label_since) = some now)) ∧
    (∀ (msgStore : MsgStore) (profStore : ProfileStore) (uid : String)
        (th : Thresholds) (login : Option Int) (now : Int),
      get_user_messages msgStore uid 30 now ≠ [] →
      lookupProfile profStore uid = none →
      (lookupProfile (update_user_risk_profile msgStore profStore uid th login now).2
          uid).map (·.risk_label_since) = some now) ∧
    (∀ (msgStore : MsgStore) (profStore : ProfileStore) (uid : String)
        (th : Thresholds) (login : Option Int) (now : Int),
      get_user_messages msgStore uid 30 now ≠ [] →
      (lookupProfile (update_user_risk_profile msgStore
          (update_user_risk_profile msgStore profStore uid th login now).2
          uid th login now).2 uid).map (·.risk_label_since) =
        (lookupProfile (update_user_risk_profile msgStore profStore uid th login now).2
            uid).map (·.risk_label_since)) := by
  refine ⟨?_, ?_, ?_⟩
  · intro ms ps uid th login now q hne hq
    constructor
    · intro hlab
      rw [hysteresis_step_some ms ps uid th login now q hne hq, if_pos hlab]
    · intro hlab
      rw [hysteresis_step_some ms ps uid th login now q hne hq, if_neg hlab]
  · intro ms ps uid th login now hne hq
    exact hysteresis_step_none ms ps uid th login now hne hq
  · intro ms ps uid th login now hne
    have hlab := update_lookup_label ms ps uid th login now hne
    cases hl : lookupProfile (update_user_risk_profile ms ps uid th login now).2 uid with
    | none => rw [hl] at hlab; cases hlab
    | some p₁ =>
      rw [hl] at hlab
      have hp₁ : p₁.current_risk_label =
          (update_user_risk_profile ms ps uid th login now).1.current_risk_label := by
        simpa using hlab
      rw [hysteresis_step_some ms _ uid th login now p₁ hne hl]
      rw [if_pos (hp₁.trans (update_label_indep ms ps
          (update_user_risk_profile ms ps uid th login now).2 uid th login now))]
      rfl

/-- C3 witness: one message for "u", empty profile table; recomputing
twice at the same time leaves the stored `risk_label_since`
unchanged. -/
theorem risk_label_since_hysteresis_witness :
    (lookupProfile (update_user_risk_profile [mkMsg (-24) 0 "buddy"]
        (update_user_risk_profile [mkMsg (-24) 0 "buddy"] [] "u" {} none 0).2
        "u" {} none 0).2 "u").map (·.risk_label_since) =
      (lookupProfile (update_user_risk_profile [mkMsg (-24) 0 "buddy"] [] "u" {}
          none 0).2 "u").map (·.risk_label_since) :=
  risk_label_since_hysteresis.2.2 [mkMsg (-24) 0 "buddy"] [] "u" {} none 0 (by decide)
